import Mathlib

/-!
Verification development for the IETF draft difficulty scanner of the repository
(ietf-tools/ietf-draft-difficulty-scan.py).

The Python source is shallowly embedded below: lines are lists of strings
(each line may carry its trailing newline, as produced by splitlines(True)),
Python ints are Int (or Nat where the source value is a count), and the
regular expressions of the source are embedded as abstract-syntax values
interpreted by a small backtracking matcher that mirrors the semantics of
the Python re module (greedy repetition with backtracking, ordered
alternation, multiline anchors, word boundaries).
-/

namespace DifficultyScan

/-- Python regex class \s (whitespace); inputs are ASCII. -/
def isPySpace (c : Char) : Bool :=
  c = ' ' || c = '\t' || c = '\n' || c = '\x0d' || c = '\x0b' || c = '\x0c'

/-- Python regex class \S. -/
def isPyNonSpace (c : Char) : Bool := !isPySpace c

/-- Python regex class \d. -/
def isPyDigit (c : Char) : Bool := c.isDigit

/-- Python regex class \w (word character); inputs are ASCII. -/
def isPyWord (c : Char) : Bool := c.isAlphanum || c = '_'

/-- Regular-expression abstract syntax, covering the constructs used by the
patterns of the scanner.  cls is a single-character class; star and the bounded
repetitions are greedy; bol and eol are the anchors ^ and $; wb is \b. -/
inductive RE where
  | eps
  | cls (p : Char → Bool)
  | seq (a b : RE)
  | alt (a b : RE)
  | star (a : RE)
  | opt (a : RE)
  | repExact (a : RE) (n : Nat)
  | repAtLeast (a : RE) (n : Nat)
  | bol
  | eol
  | wb

/-- Size measure used to compute a sufficient fuel bound for the matcher. -/
def RE.size : RE → Nat
  | .eps => 1
  | .cls _ => 1
  | .seq a b => a.size + b.size + 1
  | .alt a b => a.size + b.size + 1
  | .star a => a.size + 1
  | .opt a => a.size + 1
  | .repExact a n => (n + 1) * (a.size + 1) + 1
  | .repAtLeast a n => (n + 2) * (a.size + 1) + 3
  | .bol => 1
  | .eol => 1
  | .wb => 1

/-- Word-character test at a position (false when out of range). -/
def wordAt (s : List Char) (i : Nat) : Bool :=
  match s.get? i with
  | some c => isPyWord c
  | none => false

/-- Backtracking matcher in continuation-passing style.  flagM is the
re.MULTILINE flag; s is the subject; the continuation k receives the
position after the current node and returns the end position of an overall
match, or none to force backtracking.  Greedy repetition tries the longer
alternative first; ordered alternation tries the left branch first, exactly
as the Python engine does.  The fuel argument only bounds recursion depth;
every pattern in the source repeats none but nonempty items, and the star
case refuses empty iterations, so a fuel of (length + 2) * (size + 2) never
runs out before the search of the engine itself does. -/
def reMatch (flagM : Bool) (s : List Char) :
    Nat → RE → Nat → (Nat → Option Nat) → Option Nat
  | 0, _, _, _ => none
  | fuel + 1, r, pos, k =>
    match r with
    | .eps => k pos
    | .cls p =>
      match s.get? pos with
      | some c => if p c then k (pos + 1) else none
      | none => none
    | .seq a b =>
      reMatch flagM s fuel a pos (fun q => reMatch flagM s fuel b q k)
    | .alt a b =>
      (reMatch flagM s fuel a pos k).orElse (fun _ => reMatch flagM s fuel b pos k)
    | .star a =>
      (reMatch flagM s fuel a pos (fun q =>
        if pos < q then reMatch flagM s fuel (.star a) q k else none)).orElse
        (fun _ => k pos)
    | .opt a =>
      (reMatch flagM s fuel a pos k).orElse (fun _ => k pos)
    | .repExact a n =>
      match n with
      | 0 => k pos
      | m + 1 =>
        reMatch flagM s fuel a pos (fun q => reMatch flagM s fuel (.repExact a m) q k)
    | .repAtLeast a n =>
      reMatch flagM s fuel (.seq (.repExact a n) (.star a)) pos k
    | .bol =>
      if pos = 0 then k pos
      else if flagM && s.get? (pos - 1) = some '\n' then k pos
      else none
    | .eol =>
      if pos = s.length then k pos
      else if flagM && s.get? pos = some '\n' then k pos
      else if !flagM && pos + 1 = s.length && s.get? pos = some '\n' then k pos
      else none
    | .wb =>
      let before : Bool := if pos = 0 then false else wordAt s (pos - 1)
      let here : Bool := wordAt s pos
      if before != here then k pos else none

/-- Fuel bound for the matcher (see reMatch). -/
def reFuel (s : List Char) (r : RE) : Nat := (s.length + 2) * (r.size + 2)

/-- End position of the match of r starting at pos (Python re.match relative
to a position), or none. -/
def reMatchAt (flagM : Bool) (r : RE) (s : List Char) (pos : Nat) : Option Nat :=
  reMatch flagM s (reFuel s r) r pos some

/-- Python re.match: match anchored at the start of the subject. -/
def reMatchStart (flagM : Bool) (r : RE) (s : List Char) : Bool :=
  (reMatchAt flagM r s 0).isSome

/-- Python re.search: match starting at any position. -/
def reSearch (flagM : Bool) (r : RE) (s : List Char) : Bool :=
  (List.range (s.length + 1)).any (fun i => (reMatchAt flagM r s i).isSome)

/-- Scanning loop of Python re.findall: leftmost, non-overlapping matches,
each reported as the matched slice of the subject.  A zero-width match is
recorded and the scan advances one character, as in Python. -/
def reFindallAux (r : RE) (s : List Char) : Nat → Nat → List (List Char)
  | 0, _ => []
  | fuel + 1, pos =>
    if pos ≤ s.length then
      match reMatchAt false r s pos with
      | some e =>
        if pos < e then ((s.drop pos).take (e - pos)) :: reFindallAux r s fuel e
        else [] :: reFindallAux r s fuel (pos + 1)
      | none => reFindallAux r s fuel (pos + 1)
    else []

/-- Python re.findall (no capture groups: whole matches). -/
def reFindall (r : RE) (s : List Char) : List (List Char) :=
  reFindallAux r s (s.length + 2) 0

/-- len(re.findall(...)). -/
def reCount (r : RE) (s : List Char) : Nat := (reFindall r s).length

/-- Literal string as a regex. -/
def RE.lit (w : List Char) : RE :=
  w.foldr (fun c acc => .seq (.cls (fun x => x = c)) acc) .eps

/-- Case-insensitive literal (re.IGNORECASE on an ASCII literal). -/
def RE.litci (w : List Char) : RE :=
  w.foldr (fun c acc => .seq (.cls (fun x => x.toLower = c.toLower)) acc) .eps

/-- Sequence of regexes. -/
def RE.seqs (l : List RE) : RE := l.foldr .seq .eps

/-- Ordered alternation of a list of regexes. -/
def RE.alts : List RE → RE
  | [] => .cls (fun _ => false)
  | [r] => r
  | r :: rest => .alt r (RE.alts rest)

/-- Greedy + (one or more). -/
def RE.plus (a : RE) : RE := .seq a (.star a)

/-- Python str.startswith on strings (data-list prefix test). -/
def pyStartsWith (s pre : String) : Bool := pre.data.isPrefixOf s.data

/-- Python sep.join(l). -/
def joinSep (sep : String) : List String → String
  | [] => ""
  | [s] => s
  | s :: rest => s ++ sep ++ joinSep sep rest

/-- Python str.strip() on a char list (default whitespace). -/
def pyStripList (l : List Char) : List Char :=
  ((l.dropWhile isPySpace).reverse.dropWhile isPySpace).reverse

/-- Python str.strip() on a string. -/
def pyStrip (s : String) : String := ⟨pyStripList s.data⟩

/-- Python s.rstrip(chr(10)): drop trailing newline characters. -/
def rstripNl (s : String) : String := ⟨(s.data.reverse.dropWhile (· = '\n')).reverse⟩

/-- Drop trailing whitespace of a char list. -/
def dropTrailingWs (l : List Char) : List Char := (l.reverse.dropWhile isPySpace).reverse

/-- Python str.lower() (ASCII inputs). -/
def lowerStr (s : String) : String := ⟨s.data.map Char.toLower⟩

/-- Python substring containment (needle in hay). -/
def containsSub (hay needle : List Char) : Bool :=
  (List.range (hay.length + 1)).any (fun i => needle.isPrefixOf (hay.drop i))

/-- The single-character class for the regex dot (no DOTALL). -/
def clsDot : RE := .cls (fun c => c ≠ '\n')

/-- \s as a regex node. -/
def clsSpace : RE := .cls isPySpace

/-- \S as a regex node. -/
def clsNonSpace : RE := .cls isPyNonSpace

/-- \d as a regex node. -/
def clsDigit : RE := .cls isPyDigit

/-- \w as a regex node. -/
def clsWord : RE := .cls isPyWord

/-- PAGE_FOOTER_RE from the source: pieces of
caret \s* \S+ .* bracket \s* Page \s+ \d+ \s* bracket \s* dollar. -/
def PAGE_FOOTER_RE : RE :=
  RE.seqs [.bol, .star clsSpace, RE.plus clsNonSpace, .star clsDot,
    RE.lit ("[".data), .star clsSpace, RE.lit ("Page".data), RE.plus clsSpace,
    RE.plus clsDigit, .star clsSpace, RE.lit ("]".data), .star clsSpace, .eol]

/-- strip_page_artifacts from the source: drop page-footer lines. -/
def strip_page_artifacts (lines : List String) : List String :=
  lines.filter (fun ln => !reMatchStart false PAGE_FOOTER_RE ln.data)

/-- Maximal-munch parser for the group-1 tail (backslash-dot \d+)* of
SECTION_HDR_RE.  Returns the consumed characters and the remainder; a dot is
consumed only when followed by a digit, which matches the backtracking
behaviour of the pattern (the final literal dot of the regex then has to be
followed by whitespace, so a dot-digit pair always belongs to group 1). -/
def numTailAux : Nat → List Char → List Char × List Char
  | 0, l => ([], l)
  | fuel + 1, l =>
    match l with
    | '.' :: c :: rest =>
      if isPyDigit c then
        let ds := (c :: rest).takeWhile isPyDigit
        let (more, rest2) := numTailAux fuel ((c :: rest).drop ds.length)
        ('.' :: ds ++ more, rest2)
      else ([], l)
    | _ => ([], l)

/-- SECTION_HDR_RE applied with re.match, returning (group 1, group 2
already stripped as find_sections does).  The pattern is
caret space? (\d+(dot-digits)*) dot (two-or-more-spaces or spaces) (.*\S) \s* dollar:
an optional single leading space, a dot-separated digit group ending in a
dot, at least one whitespace character, then a title containing at least one
non-space character; group 2 extends to the last non-space character. -/
def section_hdr_match (s : List Char) : Option (String × String) :=
  let s1 := match s with
    | ' ' :: rest => rest
    | _ => s
  let ds := s1.takeWhile isPyDigit
  if ds.isEmpty then none
  else
    let r1 := s1.drop ds.length
    let (dtail, r2) := numTailAux r1.length r1
    match r2 with
    | '.' :: r3 =>
      let ws := r3.takeWhile isPySpace
      if ws.isEmpty then none
      else
        let rest := r3.drop ws.length
        if rest.any isPyNonSpace then
          some ((ds ++ dtail).asString, (pyStripList (dropTrailingWs rest)).asString)
        else none
    | _ => none

/-- The loop body of find_sections for line ln at index i: skip empty
lines, indented lines, non-matching lines and short titles; require the
previous and next lines blank-ish; otherwise yield (number, title, i). -/
def headingAt (lines : List String) (i : Nat) (ln : String) :
    Option (String × String × Nat) :=
  if ln = "" then none
  else if pyStartsWith ln ("  ") || pyStartsWith ln ("\t") then none
  else
    match section_hdr_match (rstripNl ln).data with
    | none => none
    | some nt =>
      if nt.2.length < 3 then none
      else if ((i == 0) || (pyStrip (lines.getD (i - 1) ("")) == ""))
          && ((decide (i + 1 < lines.length)) && (pyStrip (lines.getD (i + 1) ("")) == "")) then
        some (nt.1, nt.2, i)
      else none

/-- find_sections from the source: recognize numbered headings at (almost)
column 0, with a title of at least 3 characters, surrounded by blank-ish
lines.  Returns (number, title, start line index). -/
def find_sections (lines : List String) : List (String × String × Nat) :=
  lines.enum.filterMap (fun p => headingAt lines p.1 p.2)

/-- One element of the result of split_into_sections:
(number, title, start index, end index inclusive, section lines).
Indices are Int because the degenerate whole-document section of an empty
corpus ends at -1, as in the source. -/
structure Sec where
  number : String
  title : String
  startIdx : Int
  endIdx : Int
  secLines : List String
deriving Repr, DecidableEq

/-- Body of the loop of split_into_sections: each heading starts a section
that ends right before the next heading, the last one at the end of the
corpus. -/
def splitAux (lines : List String) : List (String × String × Nat) → List Sec
  | [] => []
  | (num, title, start) :: rest =>
    let endIdx : Int :=
      match rest with
      | (_, _, nxt) :: _ => (nxt : Int) - 1
      | [] => (lines.length : Int) - 1
    { number := num, title := title, startIdx := (start : Int), endIdx := endIdx,
      secLines := (lines.drop start).take ((endIdx + 1 - (start : Int)).toNat) }
      :: splitAux lines rest

/-- split_into_sections from the source; one whole-document section when no
heading is found. -/
def split_into_sections (lines : List String) : List Sec :=
  let hdrs := find_sections lines
  if hdrs.isEmpty then
    [{ number := "0", title := "Document", startIdx := 0,
       endIdx := (lines.length : Int) - 1, secLines := lines }]
  else splitAux lines hdrs

/-- A word with \b on both sides. -/
def bword (w : String) : RE := RE.seqs [.wb, RE.lit w.data, .wb]

/-- Single-character literal class. -/
def clsC (c : Char) : RE := .cls (fun x => x = c)

/-- RFC2119_WORDS from the source, in order. -/
def RFC2119_WORDS : List String :=
  ["MUST NOT", "SHALL NOT", "SHOULD NOT",
   "MUST", "SHALL", "SHOULD", "REQUIRED", "RECOMMENDED", "MAY", "OPTIONAL"]

/-- The alternation compiled by count_rfc2119:
\b(MUST NOT|SHALL NOT|...|OPTIONAL)\b with the words in list order. -/
def RFC2119_RE : RE :=
  RE.seqs [.wb, RE.alts (RFC2119_WORDS.map (fun w => RE.lit w.data)), .wb]

/-- count_rfc2119 from the source: a dict from keyword to occurrence count
plus a TOTAL entry summing the individual counts, represented as an
association list in the same insertion order. -/
def count_rfc2119 (text : String) : List (String × Nat) :=
  let found := reFindall RFC2119_RE text.data
  let counts := RFC2119_WORDS.map (fun w => (w, found.count w.data))
  counts ++ [("TOTAL", (counts.map (fun p => p.2)).sum)]

/-- dict[k] / dict.get(k, 0) on an association list of Nat counts. -/
def dictGetNat (d : List (String × Nat)) (k : String) : Nat :=
  match d.find? (fun p => p.1 == k) with
  | some p => p.2
  | none => 0

/-- GRAMMAR_MARKERS from the source, in dict order, each pattern embedded.
Character classes: alnum-dash is [A-Za-z0-9\-], word-dash is [\w\-],
ref chars are [A-Za-z0-9\.\-]. -/
def GRAMMAR_MARKERS : List (String × List RE) :=
  [("abnf",
    [bword ("ALPHA"), bword ("DIGIT"), bword ("SP"), bword ("CRLF"),
     RE.seqs [.bol, .star clsSpace, .cls Char.isAlpha,
       .star (.cls (fun c => c.isAlphanum || c = '-')), .star clsSpace,
       clsC '=', .star clsSpace, RE.plus clsDot],
     RE.seqs [.bol, .star clsSpace, .cls Char.isAlpha,
       .star (.cls (fun c => c.isAlphanum || c = '-')), .star clsSpace,
       clsC '=', .star clsSpace, clsC '/', .star clsSpace, RE.plus clsDot]]),
   ("cddl",
    [RE.seqs [.bol, .star clsSpace, clsWord, .star (.cls (fun c => isPyWord c || c = '-')),
       .star clsSpace, clsC '=', .star clsSpace, clsC '\x7b'],
     RE.seqs [.bol, .star clsSpace, clsWord, .star (.cls (fun c => isPyWord c || c = '-')),
       .star clsSpace, clsC '=', .star clsSpace, clsC '['],
     bword ("uint"), bword ("int"), bword ("tstr"), bword ("bstr"), bword ("float"),
     RE.lit ("=>".data),
     RE.seqs [.wb, clsC '*', .star clsSpace, clsWord]]),
   ("yang",
    [RE.seqs [.bol, .star clsSpace, RE.lit ("module".data), RE.plus clsSpace,
       RE.plus clsWord, .star clsSpace, clsC '\x7b'],
     RE.seqs [.bol, .star clsSpace, RE.lit ("container".data), RE.plus clsSpace,
       RE.plus clsWord, .star clsSpace, clsC '\x7b'],
     RE.seqs [.bol, .star clsSpace, RE.lit ("leaf".data), RE.plus clsSpace,
       RE.plus clsWord, .star clsSpace, clsC '\x7b'],
     bword ("namespace"), bword ("prefix")]),
   ("asn1",
    [RE.lit ("::=".data),
     bword ("SEQUENCE"), bword ("CHOICE"), bword ("INTEGER"), bword ("OCTET STRING")]),
   ("json",
    [RE.seqs [clsC '"', .star clsSpace, RE.plus (.cls (fun c => c ≠ '"')),
       .star clsSpace, clsC '"', .star clsSpace, clsC ':'],
     RE.alts [bword ("true"), bword ("false"), bword ("null")]])]

/-- [0-9a-f] under re.IGNORECASE. -/
def isHexCI (c : Char) : Bool := c.isDigit || ('a' ≤ c.toLower && c.toLower ≤ 'f')

/-- HEX_DUMP_RE: (?i) \b (0x)? hex-pair (\s+ hex-pair)-8-or-more \b. -/
def HEX_DUMP_RE : RE :=
  RE.seqs [.wb, .opt (RE.litci ("0x".data)), .repExact (.cls isHexCI) 2,
    .repAtLeast (RE.seqs [RE.plus clsSpace, .repExact (.cls isHexCI) 2]) 8, .wb]

/-- URL_RE: https?:// followed by non-space characters. -/
def URL_RE : RE :=
  RE.seqs [RE.lit ("http".data), .opt (RE.lit ("s".data)), RE.lit ("://".data),
    RE.plus clsNonSpace]

/-- REF_RE: bracket (RFC|I-D.) ref-chars-plus then colon-or-bracket. -/
def REF_RE : RE :=
  RE.seqs [clsC '[', .alt (RE.lit ("RFC".data)) (RE.lit ("I-D.".data)),
    RE.plus (.cls (fun c => c.isAlphanum || c = '.' || c = '-')),
    .alt (.cls (fun c => c = ':' || c = ']')) (clsC ']')]

/-- detect_tables from the source: at least 3 lines with 2+ pipes, or at
least 3 pure dash/equals runs of length 8+. -/
def detect_tables (lines : List String) : Bool :=
  let pipe_lines := lines.countP (fun ln => decide (2 ≤ ln.data.count '|'))
  let dash_runs := lines.countP (fun ln =>
    reMatchStart false
      (RE.seqs [.bol, .star clsSpace,
        .repAtLeast (.cls (fun c => c = '-' || c = '=')) 8, .star clsSpace, .eol])
      ln.data)
  decide (3 ≤ pipe_lines) || decide (3 ≤ dash_runs)

/-- detect_ascii_art from the source: 3+ lines of length 80+ containing a
run of 6+ diagram characters. -/
def detect_ascii_art (lines : List String) : Bool :=
  let weird := lines.countP (fun ln =>
    let s := rstripNl ln
    decide (80 ≤ s.length) &&
      reSearch false
        (.repAtLeast (.cls (fun c =>
          c = '<' || c = '>' || c = '[' || c = ']' || c = '(' || c = ')' ||
          c = '-' || c = '+' || c = '|' || c = '\\' || c = '/')) 6)
        s.data)
  decide (3 ≤ weird)

/-- FORMAT_DIAGRAM_RE: caret \s* [A-Za-z0-9_ -]+ (Packet|Frame|Parameters?)
\s* brace \s* dollar. -/
def FORMAT_DIAGRAM_RE : RE :=
  RE.seqs [.bol, .star clsSpace,
    RE.plus (.cls (fun c => c.isAlphanum || c = '_' || c = ' ' || c = '-')),
    RE.alts [RE.lit ("Packet".data), RE.lit ("Frame".data),
      RE.seqs [RE.lit ("Parameter".data), .opt (RE.lit ("s".data))]],
    .star clsSpace, clsC '\x7b', .star clsSpace, .eol]

/-- FIGURE_RE: caret \s* Figure \s+ \d+ colon, case-insensitive. -/
def FIGURE_RE : RE :=
  RE.seqs [.bol, .star clsSpace, RE.litci ("Figure".data), RE.plus clsSpace,
    RE.plus clsDigit, clsC ':']

/-- detect_format_diagrams from the source: 2+ lines matching either
pattern. -/
def detect_format_diagrams (lines : List String) : Bool :=
  let hit := lines.countP (fun ln =>
    reMatchStart false FORMAT_DIAGRAM_RE ln.data || reMatchStart false FIGURE_RE ln.data)
  decide (2 ≤ hit)

/-- Python chr(10).join. -/
def joinNl (lines : List String) : String := joinSep ("\n") lines

/-- The fenced-code-hint scan at the top of detect_grammar_kind, in source
order (the asn1 hint accepts two spellings). -/
def hint_kinds (text : String) : List String :=
  let tl := (lowerStr text).data
  (if containsSub tl ("```abnf".data) then ["abnf"] else [])
  ++ (if containsSub tl ("```cddl".data) then ["cddl"] else [])
  ++ (if containsSub tl ("```yang".data) then ["yang"] else [])
  ++ (if containsSub tl ("```asn1".data) || containsSub tl ("```asn.1".data) then ["asn1"] else [])
  ++ (if containsSub tl ("```json".data) then ["json"] else [])

/-- Number of distinct marker patterns of one kind matching the joined
text (searched with re.MULTILINE). -/
def marker_hits (pats : List RE) (joined : String) : Nat :=
  pats.countP (fun pat => reSearch true pat joined.data)

/-- detect_grammar_kind from the source: fenced-code hints first, then each
kind whose markers score at least 2 distinct hits, skipping kinds already
present. -/
def detect_grammar_kind (text : String) (lines : List String) : List String :=
  let kinds := hint_kinds text
  let joined := joinNl lines
  GRAMMAR_MARKERS.foldl (fun ks kp =>
    if 2 ≤ marker_hits kp.2 joined && !(ks.contains kp.1) then ks ++ [kp.1] else ks)
    kinds

/-- The per-section metrics dict.  Field defaults model dict.get fallbacks
for keys absent from a partial map (compute_severity reads every key
through .get); analyze_section always fills every field. -/
structure Metrics where
  title : String := ""
  line_count : Nat := 0
  char_count : Nat := 0
  long_line_count : Nat := 0
  grammar_kinds : List String := []
  has_tables : Bool := false
  has_ascii_art : Bool := false
  has_format_diagrams : Bool := false
  has_hex_dump : Bool := false
  crossref_count : Nat := 0
  url_count : Nat := 0
  rfc2119 : List (String × Nat) := []
deriving Repr, DecidableEq

/-- compute_severity from the source: additive contributions, then the
flag-count bonus, clamped into 0..100.  Numbers are Int as in Python; the
inner max 0 appears verbatim in the source. -/
def compute_severity (m : Metrics) (flags : List String) : Int :=
  let rfc_total := dictGetNat m.rfc2119 ("TOTAL")
  let score : Int :=
    (if m.has_tables then 12 else 0)
    + (if m.has_ascii_art then 10 else 0)
    + (if m.has_format_diagrams then 14 else 0)
    + (if !m.grammar_kinds.isEmpty then
         18 + 6 * (max 0 ((m.grammar_kinds.length : Int) - 1)) else 0)
    + (if m.has_hex_dump then 12 else 0)
    + (if 10 ≤ rfc_total then 14 else if 5 ≤ rfc_total then 9
       else if 2 ≤ rfc_total then 4 else 0)
    + (if 12 ≤ m.crossref_count then 10 else if 6 ≤ m.crossref_count then 6 else 0)
    + (if 8 ≤ m.url_count then 4 else 0)
    + (if 10 ≤ m.long_line_count then 8 else if 4 ≤ m.long_line_count then 4 else 0)
    + (if 250 ≤ m.line_count then 8 else if 150 ≤ m.line_count then 5 else 0)
    + (min 8 (max 0 ((flags.length : Int) - 2)))
  max 0 (min 100 score)

/-- build_flags from the source: the sequential appends are rendered as a
concatenation of conditional blocks in the same order. -/
def build_flags (m : Metrics) : List String :=
  let rfc_total := dictGetNat m.rfc2119 ("TOTAL")
  let title_l := lowerStr m.title
  (if !m.grammar_kinds.isEmpty then
     ["contains_grammar_blocks:" ++ joinSep (",") m.grammar_kinds,
      "route_to_deterministic_parser"] else [])
  ++ (if m.has_tables then ["contains_tables"] else [])
  ++ (if m.has_ascii_art then ["contains_ascii_diagrams_or_state_machines"] else [])
  ++ (if m.has_format_diagrams then
        ["contains_wire_format_diagrams", "route_to_deterministic_parser"] else [])
  ++ (if m.has_hex_dump then ["contains_hex_dump_or_binary_example"] else [])
  ++ (if 10 ≤ rfc_total then ["high_normative_density"]
      else if 5 ≤ rfc_total then ["moderate_normative_density"] else [])
  ++ (if 12 ≤ m.crossref_count then ["heavy_cross_references"]
      else if 6 ≤ m.crossref_count then ["moderate_cross_references"] else [])
  ++ (if 10 ≤ m.long_line_count then ["many_long_lines_formatting_sensitive"]
      else if 4 ≤ m.long_line_count then ["some_long_lines_formatting_sensitive"] else [])
  ++ (if containsSub title_l.data ("security considerations".data)
         || containsSub title_l.data ("privacy considerations".data) then
        ["security_privacy_reasoning_section"] else [])
  ++ (if containsSub title_l.data ("iana considerations".data)
         || containsSub title_l.data ("iana".data) then
        ["iana_registry_section"] else [])
  ++ (if containsSub title_l.data ("formal".data)
         || containsSub title_l.data ("syntax".data)
         || containsSub title_l.data ("encoding".data)
         || containsSub title_l.data ("message format".data)
         || containsSub title_l.data ("wire".data) then
        ["wire_format_or_syntax_section"] else [])

/-- Substitution loop of re.sub for a pattern with no capture groups.  At
each position: replace the leftmost match and resume after it; on a
zero-width match copy one character after the replacement, as Python does. -/
def reSubAux (r : RE) (repl : List Char) (s : List Char) : Nat → Nat → List Char
  | 0, pos => s.drop pos
  | fuel + 1, pos =>
    if pos ≤ s.length then
      match reMatchAt false r s pos with
      | some e =>
        if pos < e then repl ++ reSubAux r repl s fuel e
        else (repl ++ (s.drop pos).take 1) ++ reSubAux r repl s fuel (pos + 1)
      | none => (s.drop pos).take 1 ++ reSubAux r repl s fuel (pos + 1)
    else []

/-- preview_text from the source with its default max_chars = 300: join the
newline-stripped lines, strip, collapse whitespace-before-newline, and
truncate to 297 characters plus an ellipsis when longer than 300. -/
def preview_text (lines : List String) : String :=
  let txt := pyStrip (joinNl (lines.map rstripNl))
  let txt2 : String :=
    ⟨reSubAux (RE.seqs [RE.plus clsSpace, clsC '\n']) ("\n".data) txt.data
      (txt.data.length + 2) 0⟩
  if txt2.length ≤ 300 then txt2 else ⟨txt2.data.take (300 - 3)⟩ ++ "..."

/-- The SectionReport dataclass. -/
structure SectionReport where
  number : String
  title : String
  start_line : Int
  end_line : Int
  line_count : Nat
  char_count : Nat
  severity : Int
  flags : List String
  metrics : Metrics
  preview : String
deriving Repr, DecidableEq

/-- analyze_section from the source.  start and endIdx are the 0-based
bounds from the splitter; the report stores them 1-based.  The persisted
metrics drop the title key, modelled by clearing the title field. -/
def analyze_section (number title : String) (start endIdx : Int)
    (lines : List String) : SectionReport :=
  let text := joinNl lines
  let long_line_count := lines.countP (fun ln => decide (100 ≤ (rstripNl ln).length))
  let grammar_kinds := detect_grammar_kind text lines
  let has_tables := detect_tables lines
  let has_ascii_art := detect_ascii_art lines
  let has_format_diagrams := detect_format_diagrams lines
  let has_hex_dump := reSearch false HEX_DUMP_RE text.data
  let crossref_count := reCount REF_RE text.data
  let url_count := reCount URL_RE text.data
  let rfc := count_rfc2119 text
  let metrics : Metrics :=
    { title := title, line_count := lines.length, char_count := text.length,
      long_line_count := long_line_count, grammar_kinds := grammar_kinds,
      has_tables := has_tables, has_ascii_art := has_ascii_art,
      has_format_diagrams := has_format_diagrams, has_hex_dump := has_hex_dump,
      crossref_count := crossref_count, url_count := url_count, rfc2119 := rfc }
  let flags := build_flags metrics
  let severity := compute_severity metrics flags
  { number := number, title := title, start_line := start + 1, end_line := endIdx + 1,
    line_count := lines.length, char_count := text.length, severity := severity,
    flags := flags, metrics := { metrics with title := "" },
    preview := preview_text lines }

/-- is_bad_section from the source (the early returns become a
disjunction). -/
def is_bad_section (report : SectionReport) (severity_threshold : Int) : Bool :=
  decide (severity_threshold ≤ report.severity)
  || report.flags.contains ("route_to_deterministic_parser")
  || report.flags.contains ("wire_format_or_syntax_section")
  || report.flags.contains ("iana_registry_section")

/-- The marker block emitted for a removed section. -/
def markerFor (rep : SectionReport) : String :=
  "\n[REMOVED SECTION " ++ rep.number ++ ": " ++ rep.title ++ "]\n[severity="
  ++ toString rep.severity ++ ", flags=" ++ joinSep (",") rep.flags
  ++ "]\n\n"

/-- Lexicographic comparison on the (start, end) components, as the Python
tuple sort compares bad ranges (the report is only compared on ties of both
indices, which cannot happen for distinct sections). -/
def rangeLe (a b : Int × Int × SectionReport) : Bool :=
  decide (a.1 < b.1) || (decide (a.1 = b.1) && decide (a.2.1 ≤ b.2.1))

/-- Stable insertion used to model list.sort(). -/
def insertRange (x : Int × Int × SectionReport) :
    List (Int × Int × SectionReport) → List (Int × Int × SectionReport)
  | [] => [x]
  | y :: l => if rangeLe y x then y :: insertRange x l else x :: y :: l

/-- list.sort() on the bad ranges (stable, by (start, end)). -/
def sortRanges (l : List (Int × Int × SectionReport)) :
    List (Int × Int × SectionReport) :=
  l.foldr insertRange []

/-- The output loop of emit_filtered_draft: i is the cursor; for each bad
range emit the lines before it, optionally the marker, and skip to just
after the range; finally emit the remainder. -/
def emitAux (lines : List String) (marker : Bool) :
    Int → List (Int × Int × SectionReport) → List String
  | i, [] => lines.drop i.toNat
  | i, (s, e, rep) :: rest =>
    ((lines.drop i.toNat).take (s - i).toNat)
    ++ (if marker then [markerFor rep] else [])
    ++ emitAux lines marker (e + 1) rest

/-- emit_filtered_draft from the source. -/
def emit_filtered_draft (lines : List String) (reports : List SectionReport)
    (severity_threshold : Int) (replace_with_marker : Bool) : String :=
  let bad_ranges := (reports.filter (fun r => is_bad_section r severity_threshold)).map
    (fun r => (r.start_line - 1, r.end_line - 1, r))
  String.join (emitAux lines replace_with_marker 0 (sortRanges bad_ranges))

/-- The args dict of parse_args with its defaults. -/
structure Args where
  path : Option String := none
  mode : String := "analyze"
  severity_threshold : Int := 25
  replace_with_marker : Bool := false
deriving Repr, DecidableEq

/-- The scanning loop of parse_args.  Exceptions escaping the loop in the
source (StopIteration from a flag missing its value, ValueError from int())
are modelled as Except.error, like the explicit missing-path ValueError;
main catches them all alike. -/
def parse_args_loop (args : Args) : List String → Except String Args
  | [] =>
    match args.path with
    | none => Except.error ("Missing input draft path")
    | some _ => Except.ok args
  | a :: rest =>
    if a = "--mode" then
      match rest with
      | v :: rest2 => parse_args_loop { args with mode := v } rest2
      | [] => Except.error ("StopIteration")
    else if a = "--severity-threshold" then
      match rest with
      | v :: rest2 =>
        match v.toInt? with
        | some n => parse_args_loop { args with severity_threshold := n } rest2
        | none => Except.error ("invalid literal for int")
      | [] => Except.error ("StopIteration")
    else if a = "--replace-with-marker" then
      parse_args_loop { args with replace_with_marker := true } rest
    else
      parse_args_loop { args with path := some a } rest

/-- parse_args from the source: scan argv[1:] starting from the default
configuration. -/
def parse_args (argv : List String) : Except String Args :=
  parse_args_loop {} (argv.drop 1)

/-- The exit code of main as a function of argv: 2 when parse_args raises
(after printing the usage hint), otherwise 0 (both the filter and the
analyze branches return 0). -/
def main_exit_code (argv : List String) : Nat :=
  match parse_args argv with
  | Except.error _ => 2
  | Except.ok _ => 0

/-- The mode dispatch of main: any mode other than filter falls through to
the analyze branch. -/
def mode_branch (args : Args) : String :=
  if args.mode == "filter" then "filter" else "analyze"

/-- The analysis stage of main on a document given as its splitlines(True)
line list: strip footers, split, analyze each section. -/
def run_reports (docLines : List String) : List SectionReport :=
  let lines := strip_page_artifacts docLines
  (split_into_sections lines).map
    (fun s => analyze_section s.number s.title s.startIdx s.endIdx s.secLines)

/-- Filter mode of main on a document given as its line list. -/
def run_filter (docLines : List String) (severity_threshold : Int)
    (replace_with_marker : Bool) : String :=
  emit_filtered_draft (strip_page_artifacts docLines) (run_reports docLines)
    severity_threshold replace_with_marker

/-- Adjacency of consecutive sections: each section ends exactly one line
before the next one starts. -/
def chainOk : List Sec → Bool
  | [] => true
  | a :: l =>
    (match l.head? with
     | none => true
     | some b => b.startIdx == a.endIdx + 1) && chainOk l

/-- The single-line grammar-detection example from the spec and the test
suite (braces written as escapes). -/
def jsonExampleLine : String := "\x7b \"key\": true, \"x\": 1 \x7d"

/-- Anything headingAt accepts passed every guard: the index is that of the line itself, the title is at least 3 characters, and the line is neither empty nor
indented by two spaces or a tab. -/
theorem headingAt_some {lines : List String} {i : Nat} {ln : String}
    {n t : String} {j : Nat} (h : headingAt lines i ln = some (n, t, j)) :
    j = i ∧ 3 ≤ t.length ∧ ln ≠ ""
      ∧ (pyStartsWith ln ("  ") || pyStartsWith ln ("\t")) = false := by
  unfold headingAt at h
  by_cases h1 : ln = ""
  · rw [if_pos h1] at h; cases h
  · rw [if_neg h1] at h
    by_cases h2 : (pyStartsWith ln ("  ") || pyStartsWith ln ("\t")) = true
    · rw [if_pos h2] at h; cases h
    · rw [if_neg h2] at h
      cases hm : section_hdr_match (rstripNl ln).data with
      | none => rw [hm] at h; exact Option.noConfusion h
      | some nt =>
        rw [hm] at h
        dsimp only at h
        by_cases h3 : nt.2.length < 3
        · rw [if_pos h3] at h; cases h
        · rw [if_neg h3] at h
          by_cases h4 : (((i == 0) || (pyStrip (lines.getD (i - 1) ("")) == ""))
              && ((decide (i + 1 < lines.length))
                  && (pyStrip (lines.getD (i + 1) ("")) == ""))) = true
          · rw [if_pos h4] at h
            injection h with h5
            obtain ⟨-, h6, h7⟩ : nt.1 = n ∧ nt.2 = t ∧ i = j := by
              simpa [Prod.ext_iff] using h5
            refine ⟨h7.symm, ?_, h1, by simpa using h2⟩
            rw [← h6]; omega
          · rw [if_neg h4] at h; cases h

/-- splitAux always produces an adjacent chain: the end index of each element is
one less than the start index of the next element, by construction. -/
theorem splitAux_chainOk (lines : List String) :
    ∀ hdrs : List (String × String × Nat), chainOk (splitAux lines hdrs) = true := by
  intro hdrs
  induction hdrs with
  | nil => rfl
  | cons h t ih =>
    cases t with
    | nil =>
      obtain ⟨n1, t1, s1⟩ := h
      rfl
    | cons h2 t2 =>
      obtain ⟨n1, t1, s1⟩ := h
      obtain ⟨n2, t2x, s2⟩ := h2
      show (((s2 : Int) == (s2 : Int) - 1 + 1)
        && chainOk (splitAux lines ((n2, t2x, s2) :: t2))) = true
      rw [ih]
      simp [Int.sub_add_cancel]

/-- The last section built by splitAux ends at the last line index. -/
theorem splitAux_getLast (lines : List String) :
    ∀ (h : String × String × Nat) (t : List (String × String × Nat)),
      (splitAux lines (h :: t)).getLast?.map Sec.endIdx
        = some ((lines.length : Int) - 1) := by
  intro h t
  induction t generalizing h with
  | nil =>
    obtain ⟨n1, t1, s1⟩ := h
    simp [splitAux]
  | cons h2 t2 ih =>
    obtain ⟨n1, t1, s1⟩ := h
    obtain ⟨n2, t2x, s2⟩ := h2
    simp only [splitAux]
    rw [List.getLast?_cons_cons]
    have hih := ih (n2, t2x, s2)
    simp only [splitAux] at hih
    exact hih

/-- The first section built by splitAux starts at the first heading. -/
theorem splitAux_head (lines : List String) (n t : String) (s : Nat)
    (rest : List (String × String × Nat)) :
    (splitAux lines ((n, t, s) :: rest)).head?.map Sec.startIdx = some (s : Int) := by
  cases rest <;> rfl

/-- C1 (amended): split_into_sections always yields a nonempty adjacent
chain of sections whose last section ends at the last line index, but the
first section starts at the first recognized heading (0 only when no
heading is recognized), so lines before the first heading are covered by no
section. -/
theorem C1_splitter_partition :
    ∀ lines : List String,
      chainOk (split_into_sections lines) = true
      ∧ (split_into_sections lines).getLast?.map Sec.endIdx
          = some ((lines.length : Int) - 1)
      ∧ (split_into_sections lines).head?.map Sec.startIdx
          = some (match find_sections lines with
                  | [] => (0 : Int)
                  | (_, _, s) :: _ => (s : Int)) := by
  intro lines
  cases hf : find_sections lines with
  | nil => simp [split_into_sections, hf, chainOk]
  | cons h rest =>
    obtain ⟨n, t, s⟩ := h
    have hsplit : split_into_sections lines = splitAux lines ((n, t, s) :: rest) := by
      simp [split_into_sections, hf]
    rw [hsplit]
    exact ⟨splitAux_chainOk lines _, splitAux_getLast lines _ _,
      splitAux_head lines n t s rest⟩

/-- C1: the claim also asserts the first section always starts at line 0;
on a corpus with a preamble line before the first heading this fails: the
single recognized section starts at line 2 and line 0 is uncovered. -/
theorem C1_counterexample :
    ¬ ((split_into_sections ["x", "", "1.  Intro", "", "Body"]).head?.map Sec.startIdx
        = some 0) := by
  decide

/-- C8: the claim says no line beginning with any whitespace ever starts a
section; but SECTION_HDR_RE tolerates one leading space and find_sections
only skips lines starting with two spaces or a tab, so a line indented by a
single space does start a section. -/
theorem C8_counterexample :
    find_sections ["", " 1.  Introduction", ""] = [("1", "Introduction", 1)]
    ∧ pyStartsWith (" 1.  Introduction") (" ") = true := by
  decide

/-- C8 (amended): no line beginning with two spaces or with a tab ever
starts a section (a single leading space is tolerated by the heading
pattern). -/
theorem C8_no_indented_heading :
    ∀ (lines : List String) (n t : String) (i : Nat),
      (n, t, i) ∈ find_sections lines →
        (pyStartsWith (lines.getD i ("")) ("  ")
          || pyStartsWith (lines.getD i ("")) ("\t")) = false := by
  intro lines n t i h
  simp only [find_sections, List.mem_filterMap] at h
  obtain ⟨⟨j, ln⟩, hmem, hf⟩ := h
  obtain ⟨hji, -, -, hsw⟩ := headingAt_some hf
  subst hji
  have hget : lines[i]? = some ln := List.mk_mem_enum_iff_getElem?.mp hmem
  have hgd : lines.getD i ("") = ln := by
    rw [List.getD_eq_getElem?_getD, hget]; rfl
  rw [hgd]
  exact hsw

/-- Concrete instance of C8_no_indented_heading at the heading of a small
corpus. -/
theorem C8_no_indented_heading_witness :
    (pyStartsWith ((["", "1.  Intro", ""].getD 1 ("")) : String) ("  ")
      || pyStartsWith ((["", "1.  Intro", ""].getD 1 ("")) : String) ("\t")) = false :=
  C8_no_indented_heading ["", "1.  Intro", ""] "1" "Intro" 1 (by decide)

/-- Every kind accumulated by the marker fold was already in the
accumulator or scored at least two distinct marker hits for its patterns. -/
theorem detect_foldl_sub (joined : String) :
    ∀ (ms : List (String × List RE)) (acc : List String) (k : String),
      k ∈ ms.foldl (fun ks kp =>
        if 2 ≤ marker_hits kp.2 joined && !(ks.contains kp.1) then ks ++ [kp.1] else ks)
        acc →
      k ∈ acc ∨ ∃ pats, (k, pats) ∈ ms ∧ 2 ≤ marker_hits pats joined := by
  intro ms
  induction ms with
  | nil => intro acc k h; exact Or.inl h
  | cons m ms ih =>
    intro acc k h
    rw [List.foldl_cons] at h
    rcases ih _ k h with hacc | ⟨pats, hmem, hh⟩
    · by_cases hc : (2 ≤ marker_hits m.2 joined && !(acc.contains m.1)) = true
      · rw [if_pos hc] at hacc
        rcases List.mem_append.mp hacc with h1 | h2
        · exact Or.inl h1
        · right
          have hk : k = m.1 := by simpa using h2
          have hbound : 2 ≤ marker_hits m.2 joined := by
            simp only [Bool.and_eq_true, decide_eq_true_eq] at hc
            exact hc.1
          refine ⟨m.2, ?_, hbound⟩
          rw [hk, Prod.mk.eta]
          exact List.mem_cons_self _ _
      · rw [if_neg hc] at hacc
        exact Or.inl hacc
    · exact Or.inr ⟨pats, List.mem_cons_of_mem _ hmem, hh⟩

/-- C9: the single-line JSON example is detected as json (both json marker
patterns hit), and in general a kind reaches the result only when it comes
from a fenced-code hint or at least two distinct marker patterns of that
kind match the joined section text. -/
theorem C9_json_detection :
    ("json" ∈ detect_grammar_kind jsonExampleLine [jsonExampleLine])
    ∧ (∀ (text : String) (lines : List String) (k : String),
        k ∈ detect_grammar_kind text lines →
          k ∈ hint_kinds text
          ∨ ∃ pats, (k, pats) ∈ GRAMMAR_MARKERS
              ∧ 2 ≤ marker_hits pats (joinNl lines)) := by
  constructor
  · decide
  · intro text lines k h
    unfold detect_grammar_kind at h
    exact detect_foldl_sub (joinNl lines) GRAMMAR_MARKERS (hint_kinds text) k h

/-- Concrete instance of the general part of C9_json_detection at the JSON
example line. -/
theorem C9_json_detection_witness :
    "json" ∈ hint_kinds jsonExampleLine
    ∨ ∃ pats, ("json", pats) ∈ GRAMMAR_MARKERS
        ∧ 2 ≤ marker_hits pats (joinNl [jsonExampleLine]) :=
  C9_json_detection.2 jsonExampleLine [jsonExampleLine] ("json") C9_json_detection.1

/-- The tenth character of any grammar-blocks flag is the g of grammar,
whatever the kind list is. -/
theorem grammar_flag_char (s : String) :
    ("contains_grammar_blocks:" ++ s).data[9]? = some 'g' := by
  show ("contains_grammar_blocks:".data ++ s.data)[9]? = some 'g'
  rw [List.getElem?_append, if_pos (by decide)]
  rfl

/-- A grammar-blocks flag never equals a flag constant whose tenth
character is not g. -/
theorem gb_ne (s c : String) (hc : c.data[9]? ≠ some 'g') :
    "contains_grammar_blocks:" ++ s ≠ c := by
  intro h
  apply hc
  rw [← h]
  exact grammar_flag_char s

/-- A conditional block of constants not containing f contributes no
f-count. -/
theorem count_if_of_not_mem (f : String) (c : Prop) [Decidable c]
    (l : List String) (h : f ∉ l) : (if c then l else []).count f = 0 := by
  split
  · exact List.count_eq_zero.mpr h
  · rfl

/-- A tiered block of two constants different from f contributes no
f-count. -/
theorem count_tier_of_not_mem (f x y : String) (c1 c2 : Prop)
    [Decidable c1] [Decidable c2] (hx : f ≠ x) (hy : f ≠ y) :
    (if c1 then [x] else if c2 then [y] else []).count f = 0 := by
  split_ifs <;>
    simp [List.count_singleton, List.count_nil, beq_iff_eq, Ne.symm hx, Ne.symm hy]

/-- The two blocks that append route_to_deterministic_parser contribute
exactly one route count each when their condition holds. -/
theorem count_route_pairblock (c : Prop) [Decidable c] (x : String)
    (hx : x ≠ "route_to_deterministic_parser") :
    (if c then [x, "route_to_deterministic_parser"] else []).count
      ("route_to_deterministic_parser") = if c then 1 else 0 := by
  split_ifs <;> simp [List.count_cons, List.count_nil, beq_iff_eq, hx]

/-- Bound for a conditional singleton block. -/
theorem count_block_single_le (f x : String) (c : Prop) [Decidable c] :
    (if c then [x] else []).count f ≤ List.count f [x] := by
  split
  · exact le_rfl
  · simp

/-- Bound for a conditional pair block whose second element is the route
flag, counting some other string. -/
theorem count_block_pair_le (f x : String) (c : Prop) [Decidable c]
    (hf : f ≠ "route_to_deterministic_parser") :
    (if c then [x, "route_to_deterministic_parser"] else []).count f
      ≤ List.count f [x] := by
  split_ifs
  · simp [List.count_cons, List.count_nil, List.count_singleton, beq_iff_eq,
      Ne.symm hf]
  · simp

/-- Bound for a two-tier block. -/
theorem count_block_tier_le (f x y : String) (c1 c2 : Prop)
    [Decidable c1] [Decidable c2] :
    (if c1 then [x] else if c2 then [y] else []).count f
      ≤ List.count f [x] + List.count f [y] := by
  split_ifs
  · exact Nat.le_add_right _ _
  · exact Nat.le_add_left _ _
  · exact Nat.zero_le _

/-- C6: the claim says no flag string ever repeats; but when a section has
both grammar blocks and format diagrams, build_flags appends
route_to_deterministic_parser twice. -/
theorem C6_counterexample :
    (build_flags { grammar_kinds := ["abnf"], has_format_diagrams := true }).count
      ("route_to_deterministic_parser") = 2
    ∧ ¬ (build_flags
          { grammar_kinds := ["abnf"], has_format_diagrams := true }).Nodup := by
  constructor
  · decide
  · decide

/-- C6 (amended): for every metrics map, route_to_deterministic_parser
appears once per trigger (grammar kinds present, format diagrams present),
hence twice when both hold; every other flag string appears at most once. -/
theorem C6_flag_duplicates :
    ∀ m : Metrics,
      (build_flags m).count ("route_to_deterministic_parser")
        = (if m.grammar_kinds.isEmpty then 0 else 1)
          + (if m.has_format_diagrams then 1 else 0)
      ∧ ∀ f : String, f ≠ "route_to_deterministic_parser" →
          (build_flags m).count f ≤ 1 := by
  intro m
  constructor
  · simp only [build_flags, List.count_append]
    rw [count_route_pairblock _ _ (gb_ne _ _ (by decide)),
      count_route_pairblock _ _ (by decide),
      count_if_of_not_mem _ _ _ (by decide),
      count_if_of_not_mem _ _ _ (by decide),
      count_if_of_not_mem _ _ _ (by decide),
      count_if_of_not_mem _ _ _ (by decide),
      count_if_of_not_mem _ _ _ (by decide),
      count_if_of_not_mem _ _ _ (by decide),
      count_tier_of_not_mem _ _ _ _ _ (by decide) (by decide),
      count_tier_of_not_mem _ _ _ _ _ (by decide) (by decide),
      count_tier_of_not_mem _ _ _ _ _ (by decide) (by decide)]
    cases hg : m.grammar_kinds.isEmpty <;> cases hfd : m.has_format_diagrams <;> simp
  · intro f hf
    have key : List.count f ["contains_grammar_blocks:" ++ joinSep (",") m.grammar_kinds]
        + List.count f ["contains_tables", "contains_ascii_diagrams_or_state_machines",
            "contains_wire_format_diagrams", "contains_hex_dump_or_binary_example",
            "high_normative_density", "moderate_normative_density",
            "heavy_cross_references", "moderate_cross_references",
            "many_long_lines_formatting_sensitive", "some_long_lines_formatting_sensitive",
            "security_privacy_reasoning_section", "iana_registry_section",
            "wire_format_or_syntax_section"] ≤ 1 := by
      by_cases hgb : f = "contains_grammar_blocks:" ++ joinSep (",") m.grammar_kinds
      · have hz : List.count f ["contains_tables",
            "contains_ascii_diagrams_or_state_machines", "contains_wire_format_diagrams",
            "contains_hex_dump_or_binary_example", "high_normative_density",
            "moderate_normative_density", "heavy_cross_references",
            "moderate_cross_references", "many_long_lines_formatting_sensitive",
            "some_long_lines_formatting_sensitive", "security_privacy_reasoning_section",
            "iana_registry_section", "wire_format_or_syntax_section"] = 0 := by
          refine List.count_eq_zero.mpr ?_
          rw [hgb]
          intro hmem
          simp only [List.mem_cons, List.not_mem_nil, or_false] at hmem
          rcases hmem with h | h | h | h | h | h | h | h | h | h | h | h | h <;>
            exact gb_ne _ _ (by decide) h
        rw [hz, hgb]
        simp [List.count_singleton]
      · have h1 : List.count f
            ["contains_grammar_blocks:" ++ joinSep (",") m.grammar_kinds] = 0 := by
          simp [List.count_singleton, beq_iff_eq, Ne.symm hgb]
        have h2 : List.count f ["contains_tables",
            "contains_ascii_diagrams_or_state_machines", "contains_wire_format_diagrams",
            "contains_hex_dump_or_binary_example", "high_normative_density",
            "moderate_normative_density", "heavy_cross_references",
            "moderate_cross_references", "many_long_lines_formatting_sensitive",
            "some_long_lines_formatting_sensitive", "security_privacy_reasoning_section",
            "iana_registry_section", "wire_format_or_syntax_section"] ≤ 1 :=
          List.nodup_iff_count_le_one.mp (by decide) f
        omega
    have keyT : List.count f ["contains_grammar_blocks:" ++ joinSep (",") m.grammar_kinds]
        + List.count f ["contains_tables"]
        + List.count f ["contains_ascii_diagrams_or_state_machines"]
        + List.count f ["contains_wire_format_diagrams"]
        + List.count f ["contains_hex_dump_or_binary_example"]
        + (List.count f ["high_normative_density"]
            + List.count f ["moderate_normative_density"])
        + (List.count f ["heavy_cross_references"]
            + List.count f ["moderate_cross_references"])
        + (List.count f ["many_long_lines_formatting_sensitive"]
            + List.count f ["some_long_lines_formatting_sensitive"])
        + List.count f ["security_privacy_reasoning_section"]
        + List.count f ["iana_registry_section"]
        + List.count f ["wire_format_or_syntax_section"] ≤ 1 := by
      have e : List.count f ["contains_grammar_blocks:" ++ joinSep (",") m.grammar_kinds]
          + List.count f ["contains_tables"]
          + List.count f ["contains_ascii_diagrams_or_state_machines"]
          + List.count f ["contains_wire_format_diagrams"]
          + List.count f ["contains_hex_dump_or_binary_example"]
          + (List.count f ["high_normative_density"]
              + List.count f ["moderate_normative_density"])
          + (List.count f ["heavy_cross_references"]
              + List.count f ["moderate_cross_references"])
          + (List.count f ["many_long_lines_formatting_sensitive"]
              + List.count f ["some_long_lines_formatting_sensitive"])
          + List.count f ["security_privacy_reasoning_section"]
          + List.count f ["iana_registry_section"]
          + List.count f ["wire_format_or_syntax_section"]
          = List.count f ["contains_grammar_blocks:" ++ joinSep (",") m.grammar_kinds]
            + List.count f ["contains_tables",
                "contains_ascii_diagrams_or_state_machines",
                "contains_wire_format_diagrams", "contains_hex_dump_or_binary_example",
                "high_normative_density", "moderate_normative_density",
                "heavy_cross_references", "moderate_cross_references",
                "many_long_lines_formatting_sensitive",
                "some_long_lines_formatting_sensitive",
                "security_privacy_reasoning_section", "iana_registry_section",
                "wire_format_or_syntax_section"] := by
        simp only [List.count_cons, List.count_singleton, List.count_nil]
        ring
      rw [e]
      exact key
    simp only [build_flags, List.count_append]
    refine le_trans ?_ keyT
    gcongr ?_ + ?_ + ?_ + ?_ + ?_ + ?_ + ?_ + ?_ + ?_ + ?_ + ?_
    · exact count_block_pair_le f _ _ hf
    · exact count_block_single_le f _ _
    · exact count_block_single_le f _ _
    · exact count_block_pair_le f _ _ hf
    · exact count_block_single_le f _ _
    · exact count_block_tier_le f _ _ _ _
    · exact count_block_tier_le f _ _ _ _
    · exact count_block_tier_le f _ _ _ _
    · exact count_block_single_le f _ _
    · exact count_block_single_le f _ _
    · exact count_block_single_le f _ _

/-- Concrete instance of C6_flag_duplicates: on a tables-only metrics map
the route flag count is 0 and contains_tables appears at most once. -/
theorem C6_flag_duplicates_witness :
    (build_flags { has_tables := true }).count ("contains_tables") ≤ 1 :=
  (C6_flag_duplicates { has_tables := true }).2 ("contains_tables") (by decide)

/-- With no bad section, the filter emitter reproduces the joined input
lines verbatim. -/
theorem emit_no_bad (lines : List String) (reports : List SectionReport)
    (thr : Int) (marker : Bool)
    (h : ∀ r ∈ reports, is_bad_section r thr = false) :
    emit_filtered_draft lines reports thr marker = String.join lines := by
  unfold emit_filtered_draft
  have hfil : reports.filter (fun r => is_bad_section r thr) = [] :=
    List.filter_eq_nil_iff.mpr (fun r hr => by simp [h r hr])
  rw [hfil]
  rfl

/-- C5 (amended): Filter mode over a document with no bad section returns
the footer-stripped document text (the original text only when no line
matches the page-footer pattern), and running it again on the stripped
document returns the same text, so the pass is idempotent. -/
theorem C5_filter_pass_through :
    (∀ (lines : List String) (reports : List SectionReport) (thr : Int)
        (marker : Bool),
      (∀ r ∈ reports, is_bad_section r thr = false) →
      emit_filtered_draft lines reports thr marker = String.join lines)
    ∧ (∀ (docLines : List String) (thr : Int) (marker : Bool),
      (∀ r ∈ run_reports docLines, is_bad_section r thr = false) →
      run_filter docLines thr marker = String.join (strip_page_artifacts docLines)
      ∧ run_filter (strip_page_artifacts docLines) thr marker
          = String.join (strip_page_artifacts docLines)) := by
  have hstrip : ∀ docLines : List String,
      strip_page_artifacts (strip_page_artifacts docLines)
        = strip_page_artifacts docLines := by
    intro docLines
    unfold strip_page_artifacts
    rw [List.filter_filter]
    simp
  refine ⟨emit_no_bad, ?_⟩
  intro docLines thr marker h
  have hrep : run_reports (strip_page_artifacts docLines) = run_reports docLines := by
    unfold run_reports
    rw [hstrip]
  constructor
  · unfold run_filter
    exact emit_no_bad _ _ _ _ h
  · unfold run_filter
    rw [hstrip, hrep]
    exact emit_no_bad _ _ _ _ h

/-- Concrete instance of C5_filter_pass_through on a one-line document with
no report. -/
theorem C5_filter_pass_through_witness :
    emit_filtered_draft ["Hello\n"] [] 25 false = String.join ["Hello\n"] :=
  C5_filter_pass_through.1 ["Hello\n"] [] 25 false (by simp)

/-- C5: the claim promises the original document text; a document whose
only line is a page footer has no bad section, yet Filter mode returns the
empty string because footers are stripped before anything else. -/
theorem C5_counterexample :
    ((run_reports ["Author [Page 1]\n"]).all
      (fun r => !(is_bad_section r 25))) = true
    ∧ run_filter ["Author [Page 1]\n"] 25 false
        ≠ String.join ["Author [Page 1]\n"] := by
  constructor
  · decide
  · decide

/-- C7: the claim says an invalid mode is rejected with exit code 2; in
fact parse_args accepts any mode value, main exits 0, and the dispatch
treats every mode other than filter as analyze. -/
theorem C7_counterexample :
    parse_args ["prog", "--mode", "bogus", "draft.txt"]
      = Except.ok ⟨some ("draft.txt"), "bogus", 25, false⟩
    ∧ main_exit_code ["prog", "--mode", "bogus", "draft.txt"] = 0
    ∧ mode_branch ⟨some ("draft.txt"), "bogus", 25, false⟩ = "analyze" := by
  refine ⟨rfl, rfl, rfl⟩

/-- C7 (amended): argument-parsing failures (missing path, flag without a
value, non-integer threshold) exit with code 2 after the usage hint, and a
missing path is such a failure; but mode values are never validated: any
mode other than filter makes main proceed in analyze mode. -/
theorem C7_arg_error_exit :
    (∀ (argv : List String) (msg : String),
      parse_args argv = Except.error msg → main_exit_code argv = 2)
    ∧ parse_args ["prog"] = Except.error ("Missing input draft path")
    ∧ main_exit_code ["prog"] = 2
    ∧ (∀ args : Args, args.mode ≠ "filter" → mode_branch args = "analyze") := by
  refine ⟨?_, rfl, rfl, ?_⟩
  · intro argv msg h
    unfold main_exit_code
    rw [h]
  · intro args hm
    simp [mode_branch, beq_iff_eq, hm]

/-- Concrete instance of C7_arg_error_exit: the missing-path error exits 2
and a bogus mode is dispatched to analyze. -/
theorem C7_arg_error_exit_witness :
    main_exit_code ["prog"] = 2
    ∧ mode_branch ⟨some ("x.txt"), "bogus", 25, false⟩ = "analyze" :=
  ⟨C7_arg_error_exit.1 ["prog"] ("Missing input draft path") rfl,
   C7_arg_error_exit.2.2.2 _ (by decide)⟩

/-- C2: the claim says the six-line corpus with a dot-leader table-of-
contents line yields exactly one section; in fact find_sections also
accepts the dot-leader line (it sits at column 0 between blank lines and
the code has no dot-leader rejection), so two sections are found. -/
theorem C2_counterexample :
    ¬ ((find_sections
        ["", "1.  Intro .......... 3", "", "1.  Intro", "", "Body"]).length = 1) := by
  decide

/-- C2 (amended): on the six-line corpus the splitter recognizes exactly
two sections, both numbered 1: the dot-leader line at index 1 with title
Intro .......... 3, and the real heading at index 3 with title Intro. -/
theorem C2_two_sections :
    find_sections ["", "1.  Intro .......... 3", "", "1.  Intro", "", "Body"]
      = [("1", "Intro .......... 3", 1), ("1", "Intro", 3)] := by
  decide

/-- C3: on the string with the four normative phrases, each two-word
phrase and each bare keyword is counted exactly once, every other keyword
is zero, and TOTAL is 4. -/
theorem C3_rfc2119_counts :
    count_rfc2119 ("MUST NOT MUST SHOULD NOT SHOULD")
      = [("MUST NOT", 1), ("SHALL NOT", 0), ("SHOULD NOT", 1),
         ("MUST", 1), ("SHALL", 0), ("SHOULD", 1), ("REQUIRED", 0),
         ("RECOMMENDED", 0), ("MAY", 0), ("OPTIONAL", 0), ("TOTAL", 4)] := by
  decide

/-- C4: severity of a metrics map whose only signal is one grammar kind,
with no flags, is exactly 18. -/
theorem C4_severity_single_grammar :
    compute_severity { grammar_kinds := ["abnf"] } [] = 18 := by
  decide

/-- C10: a numbered heading whose stripped title is shorter than 3
characters is never recognized: every recognized section has a title of at
least 3 characters, and the blank-sandwiched line 1.  Ab starts no
section. -/
theorem C10_short_title_rejected :
    (∀ (lines : List String) (n t : String) (i : Nat),
      (n, t, i) ∈ find_sections lines → 3 ≤ t.length)
    ∧ find_sections ["", "1.  Ab", ""] = [] := by
  constructor
  · intro lines n t i h
    simp only [find_sections, List.mem_filterMap] at h
    obtain ⟨⟨j, ln⟩, -, hf⟩ := h
    exact (headingAt_some hf).2.1
  · decide

/-- Concrete instance of the general part of C10_short_title_rejected at
the heading of a small corpus. -/
theorem C10_short_title_rejected_witness :
    3 ≤ ("Intro" : String).length :=
  C10_short_title_rejected.1 ["", "1.  Intro", ""] "1" "Intro" 1 (by decide)

